import Mathlib

set_option maxRecDepth 8192

/-!
Verification of the Linux DVB tuner control layer
(modules/access/dtv/linux.c, Linux DVB API version 5).

The definitions below are a shallow embedding of the C source: enum
constants carry the numeric values of linux/dvb/frontend.h, the
translation tables are transcribed entry by entry, bsearch is modelled
as the standard binary search over half-open index ranges (the glibc
implementation), and the stateful per-PID filter table is modelled as
explicit state passing with the kernel open/ioctl outcomes supplied as
an explicit environment value.  Machine integers are Nat/Int with
explicit reduction modulo 2^32 where the C code can overflow, and the
assignment of -1 to a uint16_t field is written as 65535.
-/

/-- Values of enum fe_modulation from linux/dvb/frontend.h. -/
def QPSK : Int := 0

def QAM_16 : Int := 1

def QAM_32 : Int := 2

def QAM_64 : Int := 3

def QAM_128 : Int := 4

def QAM_256 : Int := 5

def QAM_AUTO : Int := 6

def VSB_8 : Int := 7

def VSB_16 : Int := 8

def PSK_8 : Int := 9

def APSK_16 : Int := 10

def APSK_32 : Int := 11

def DQPSK : Int := 12

/-- Values of enum fe_code_rate from linux/dvb/frontend.h. -/
def FEC_NONE : Int := 0

def FEC_1_2 : Int := 1

def FEC_2_3 : Int := 2

def FEC_3_4 : Int := 3

def FEC_4_5 : Int := 4

def FEC_5_6 : Int := 5

def FEC_6_7 : Int := 6

def FEC_7_8 : Int := 7

def FEC_8_9 : Int := 8

def FEC_AUTO : Int := 9

def FEC_9_10 : Int := 11

/-- Values of enum fe_transmit_mode from linux/dvb/frontend.h. -/
def TRANSMISSION_MODE_2K : Int := 0

def TRANSMISSION_MODE_8K : Int := 1

def TRANSMISSION_MODE_AUTO : Int := 2

def TRANSMISSION_MODE_4K : Int := 3

/-- Values of enum fe_guard_interval from linux/dvb/frontend.h. -/
def GUARD_INTERVAL_1_32 : Int := 0

def GUARD_INTERVAL_1_16 : Int := 1

def GUARD_INTERVAL_1_8 : Int := 2

def GUARD_INTERVAL_1_4 : Int := 3

def GUARD_INTERVAL_AUTO : Int := 4

/-- Values of enum fe_hierarchy from linux/dvb/frontend.h. -/
def HIERARCHY_NONE : Int := 0

def HIERARCHY_1 : Int := 1

def HIERARCHY_2 : Int := 2

def HIERARCHY_4 : Int := 3

def HIERARCHY_AUTO : Int := 4

/-- Values of enum fe_pilot from linux/dvb/frontend.h. -/
def PILOT_ON : Int := 0

def PILOT_OFF : Int := 1

def PILOT_AUTO : Int := 2

/-- Values of enum fe_rolloff from linux/dvb/frontend.h. -/
def ROLLOFF_35 : Int := 0

def ROLLOFF_20 : Int := 1

def ROLLOFF_25 : Int := 2

def ROLLOFF_AUTO : Int := 3

/-- Values of enum fe_sec_voltage from linux/dvb/frontend.h. -/
def SEC_VOLTAGE_13 : Int := 0

def SEC_VOLTAGE_18 : Int := 1

def SEC_VOLTAGE_OFF : Int := 2

/-- Values of enum fe_sec_tone_mode from linux/dvb/frontend.h. -/
def SEC_TONE_ON : Int := 0

def SEC_TONE_OFF : Int := 1

/-- DTV property command codes from linux/dvb/frontend.h. -/
def DTV_CLEAR : Nat := 2

def DTV_FREQUENCY : Nat := 3

def DTV_MODULATION : Nat := 4

def DTV_BANDWIDTH_HZ : Nat := 5

def DTV_SYMBOL_RATE : Nat := 8

def DTV_INNER_FEC : Nat := 9

def DTV_VOLTAGE : Nat := 10

def DTV_TONE : Nat := 11

def DTV_PILOT : Nat := 12

def DTV_ROLLOFF : Nat := 13

def DTV_DELIVERY_SYSTEM : Nat := 17

def DTV_CODE_RATE_HP : Nat := 36

def DTV_CODE_RATE_LP : Nat := 37

def DTV_GUARD_INTERVAL : Nat := 38

def DTV_TRANSMISSION_MODE : Nat := 39

def DTV_HIERARCHY : Nat := 40

/-- Values of enum fe_delivery_system from linux/dvb/frontend.h. -/
def SYS_DVBC_ANNEX_AC : Int := 1

def SYS_DVBT : Int := 3

def SYS_DVBS : Int := 5

def SYS_DVBS2 : Int := 6

def SYS_ATSC : Int := 11

/-- Reduction modulo 2^32, the effect of storing into a C uint32_t. -/
def U32 (n : Nat) : Int := ((n % 4294967296 : Nat) : Int)

/-- Three-way comparison on a linear order; this is the sign information a C
comparator such as icmp or scmp returns (negative, zero, positive). -/
def cmp3 {κ : Type} [LinearOrder κ] (a b : κ) : Ordering :=
  if a < b then Ordering.lt else if a = b then Ordering.eq else Ordering.gt

/-- Model of the C library bsearch over a list, as implemented by glibc:
binary search on the half-open index range [l, u) picking the midpoint
(l + u) / 2.  The comparator cmp is already applied to the search key, so
cmp e tells where the key stands relative to entry e.  Recursion is fueled;
any fuel of at least u - l gives the unbounded behaviour. -/
def bsearchGo {β : Type} (cmp : β → Ordering) (arr : List β) :
    Nat → Nat → Nat → Option β
  | 0, _, _ => none
  | fuel + 1, l, u =>
    if l < u then
      match arr[(l + u) / 2]? with
      | none => none
      | some e =>
        match cmp e with
        | Ordering.lt => bsearchGo cmp arr fuel l ((l + u) / 2)
        | Ordering.eq => some e
        | Ordering.gt => bsearchGo cmp arr fuel ((l + u) / 2 + 1) u
    else none

/-- The C bsearch call over the whole table. -/
def bsearch {β : Type} (cmp : β → Ordering) (arr : List β) : Option β :=
  bsearchGo cmp arr (arr.length + 1) 0 arr.length

/-- Mirror of dvb_int_map_t: a VLC configuration integer paired with a Linux
DVB enum value. -/
structure dvb_int_map_t where
  vlc : Int
  linux_ : Int
deriving DecidableEq

/-- Mirror of dvb_str_map_t: a VLC configuration string paired with a Linux
DVB enum value. -/
structure dvb_str_map_t where
  vlc : String
  linux_ : Int
deriving DecidableEq

/-- Mirror of dvb_parse_int: bsearch with the icmp comparator (key minus
entry key), returning the mapped value when found and the default
otherwise. -/
def dvb_parse_int (i : Int) (map : List dvb_int_map_t) (dflt : Int) : Int :=
  match bsearch (fun e => cmp3 i e.vlc) map with
  | some p => p.linux_
  | none => dflt

/-- Mirror of dvb_parse_str: a NULL string (here none) skips the search and
yields the default; otherwise bsearch with the scmp comparator.  strcmp on
the ASCII table keys is the lexicographic comparison of the character
lists, so the keys are compared through String.data. -/
def dvb_parse_str (str : Option String) (map : List dvb_str_map_t)
    (dflt : Int) : Int :=
  match str with
  | none => dflt
  | some s =>
    match bsearch (fun e => cmp3 s.data e.vlc.data) map with
    | some p => p.linux_
    | none => dflt

/-- The mods table of dvb_parse_modulation, transcribed in source order. -/
def mods : List dvb_str_map_t :=
  [⟨"128QAM", QAM_128⟩, ⟨"16APSK", APSK_16⟩, ⟨"16QAM", QAM_16⟩,
   ⟨"16VSB", VSB_16⟩, ⟨"256QAM", QAM_256⟩, ⟨"32APSK", APSK_32⟩,
   ⟨"32QAM", QAM_32⟩, ⟨"64QAM", QAM_64⟩, ⟨"8PSK", PSK_8⟩, ⟨"8VSB", VSB_8⟩,
   ⟨"DQPSK", DQPSK⟩, ⟨"QAM", QAM_AUTO⟩, ⟨"QPSK", QPSK⟩]

/-- Mirror of dvb_parse_modulation. -/
def dvb_parse_modulation (str : Option String) (dflt : Int) : Int :=
  dvb_parse_str str mods dflt

/-- The rates table of dvb_parse_fec, transcribed in source order. -/
def rates : List dvb_str_map_t :=
  [⟨"", FEC_AUTO⟩, ⟨"1/2", FEC_1_2⟩, ⟨"2/3", FEC_2_3⟩, ⟨"3/4", FEC_3_4⟩,
   ⟨"4/5", FEC_4_5⟩, ⟨"5/6", FEC_5_6⟩, ⟨"6/7", FEC_6_7⟩, ⟨"7/8", FEC_7_8⟩,
   ⟨"8/9", FEC_8_9⟩, ⟨"9/10", FEC_9_10⟩]

/-- Mirror of dvb_parse_fec. -/
def dvb_parse_fec (str : Option String) : Int :=
  dvb_parse_str str rates FEC_AUTO

/-- The polarization table of dvb_parse_polarization; the character keys H,
L, R, V are written as their ASCII codes 72, 76, 82, 86. -/
def polarizations : List dvb_int_map_t :=
  [⟨0, SEC_VOLTAGE_OFF⟩, ⟨72, SEC_VOLTAGE_18⟩, ⟨76, SEC_VOLTAGE_18⟩,
   ⟨82, SEC_VOLTAGE_13⟩, ⟨86, SEC_VOLTAGE_13⟩]

/-- Mirror of dvb_parse_polarization. -/
def dvb_parse_polarization (pol : Int) : Int :=
  dvb_parse_int pol polarizations SEC_VOLTAGE_OFF

/-- The transmission mode table of dvb_parse_transmit_mode. -/
def transmit_modes : List dvb_int_map_t :=
  [⟨-1, TRANSMISSION_MODE_AUTO⟩, ⟨2, TRANSMISSION_MODE_2K⟩,
   ⟨4, TRANSMISSION_MODE_4K⟩, ⟨8, TRANSMISSION_MODE_8K⟩]

/-- Mirror of dvb_parse_transmit_mode. -/
def dvb_parse_transmit_mode (i : Int) : Int :=
  dvb_parse_int i transmit_modes TRANSMISSION_MODE_AUTO

/-- The guard interval table of dvb_parse_guard. -/
def guards : List dvb_str_map_t :=
  [⟨"", GUARD_INTERVAL_AUTO⟩, ⟨"1/16", GUARD_INTERVAL_1_16⟩,
   ⟨"1/32", GUARD_INTERVAL_1_32⟩, ⟨"1/4", GUARD_INTERVAL_1_4⟩,
   ⟨"1/8", GUARD_INTERVAL_1_8⟩]

/-- Mirror of dvb_parse_guard. -/
def dvb_parse_guard (str : Option String) : Int :=
  dvb_parse_str str guards GUARD_INTERVAL_AUTO

/-- The hierarchy table of dvb_parse_hierarchy, transcribed exactly as
written in the source: each entry lists the fe_hierarchy enum value in the
vlc (key) field and the VLC configuration integer in the linux_ (value)
field, i.e. the two columns are transposed relative to dvb_int_map_t. -/
def hierarchies : List dvb_int_map_t :=
  [⟨HIERARCHY_AUTO, -1⟩, ⟨HIERARCHY_NONE, 0⟩, ⟨HIERARCHY_1, 1⟩,
   ⟨HIERARCHY_2, 2⟩, ⟨HIERARCHY_4, 4⟩]

/-- Mirror of dvb_parse_hierarchy. -/
def dvb_parse_hierarchy (i : Int) : Int :=
  dvb_parse_int i hierarchies HIERARCHY_AUTO

/-- One row of the default LNB oscillator table in dvb_set_sec; all four
fields are uint16_t values in MHz (min, max) and kHz-scaled-by-1000
(low, high are stored in MHz and multiplied by 1000 on selection). -/
structure LnbBand where
  min : Nat
  max : Nat
  low : Nat
  high : Nat
deriving DecidableEq

/-- The five-row default oscillator table of dvb_set_sec in source order:
Ku band, C band (high), C band (low), S band, adjusted IF (L band). -/
def lnb_bands : List LnbBand :=
  [⟨10700, 13250, 9750, 10600⟩, ⟨4500, 4800, 5950, 0⟩,
   ⟨3400, 4200, 5150, 0⟩, ⟨2500, 2700, 3650, 0⟩, ⟨950, 2150, 0, 0⟩]

/-- The default-oscillator block of dvb_set_sec: when the caller supplies no
low oscillator frequency (lowf = 0), scan the band table for the first row
whose MHz range contains freq / 1000 and take its low/high pair scaled by
1000; when no row matches, an error is logged (the returned Bool) and both
oscillator variables keep their incoming values.  freq, lowf, highf are in
kHz as in the source. -/
def dvb_sec_osc (freq lowf highf : Nat) : Nat × Nat × Bool :=
  if lowf = 0 then
    match lnb_bands.find?
        (fun b => decide (b.min ≤ freq / 1000) && decide (freq / 1000 ≤ b.max)) with
    | some b => (b.low * 1000, b.high * 1000, false)
    | none => (lowf, highf, true)
  else (lowf, highf, false)

/-- The DiSEqC 1.0 master command built by dvb_set_sec when the configured
satellite number is positive: satno is first mapped by (satno - 1) and 3,
and the data byte sets 0xF0, the two port bits from satno, the polarization
bit (voltage is the already parsed fe_sec_voltage) and the tone-option
bit. -/
def diseqc_master_cmd (satno : Nat) (voltage : Int) (tone : Int) : List Nat :=
  [0xE0, 0x10, 0x38,
   0xF0 ||| (((satno - 1) % 4) <<< 2) |||
     ((if voltage = SEC_VOLTAGE_18 then 1 else 0) <<< 1) |||
     (if tone = SEC_TONE_ON then 1 else 0),
   0, 0]

/-- The pilot switch of dvb_set_dvbs2: 0 and 1 select off and on, every
other input falls to the default case PILOT_AUTO. -/
def dvbs2_pilot (pilot : Int) : Int :=
  if pilot = 0 then PILOT_OFF
  else if pilot = 1 then PILOT_ON
  else PILOT_AUTO

/-- The roll-off switch of dvb_set_dvbs2, transcribed exactly as written in
the source: 20, 25, 35 select their enum values and the default case reuses
the constant PILOT_AUTO. -/
def dvbs2_rolloff (rolloff : Int) : Int :=
  if rolloff = 20 then ROLLOFF_20
  else if rolloff = 25 then ROLLOFF_25
  else if rolloff = 35 then ROLLOFF_35
  else PILOT_AUTO

/-- The ordered property set submitted by dvb_set_dvbs2. -/
def dvb_set_dvbs2_props (freq : Nat) (modstr : Option String) (srate : Nat)
    (fecstr : Option String) (pilot : Int) (rolloff : Int) :
    List (Nat × Int) :=
  [(DTV_CLEAR, 0), (DTV_DELIVERY_SYSTEM, SYS_DVBS2),
   (DTV_FREQUENCY, (freq : Int)),
   (DTV_MODULATION, dvb_parse_modulation modstr QPSK),
   (DTV_SYMBOL_RATE, (srate : Int)),
   (DTV_INNER_FEC, dvb_parse_fec fecstr),
   (DTV_PILOT, dvbs2_pilot pilot),
   (DTV_ROLLOFF, dvbs2_rolloff rolloff)]

/-- The ordered property set submitted by dvb_set_dvbt: freq is scaled from
MHz-free input by a uint32 multiplication by 1000 and bandwidth by a uint32
multiplication by 1000000, exactly the two distinct scalings of the
source. -/
def dvb_set_dvbt_props (freq : Nat) (modstr fechstr feclstr : Option String)
    (bandwidth : Nat) (transmit_val : Int) (guardstr : Option String)
    (hierarchy_val : Int) : List (Nat × Int) :=
  [(DTV_CLEAR, 0), (DTV_DELIVERY_SYSTEM, SYS_DVBT),
   (DTV_FREQUENCY, U32 (freq * 1000)),
   (DTV_MODULATION, dvb_parse_modulation modstr QAM_AUTO),
   (DTV_CODE_RATE_HP, dvb_parse_fec fechstr),
   (DTV_CODE_RATE_LP, dvb_parse_fec feclstr),
   (DTV_BANDWIDTH_HZ, U32 (bandwidth * 1000000)),
   (DTV_TRANSMISSION_MODE, dvb_parse_transmit_mode transmit_val),
   (DTV_GUARD_INTERVAL, dvb_parse_guard guardstr),
   (DTV_HIERARCHY, dvb_parse_hierarchy hierarchy_val)]

/-- One slot of the bounded per-PID filter table (the pids array of struct
dvb_device in the fallback, non-USE_DMX build): fd is the demux descriptor
or the sentinel -1, pid is a uint16_t, so the sentinel assignment of -1
stores 65535. -/
structure PidSlot where
  fd : Int
  pid : Nat
deriving DecidableEq

/-- The part of struct dvb_device that dvb_add_pid and dvb_remove_pid
touch: the budget-mode flag chosen at open time and the slot table
(MAX_PIDS entries). -/
structure DvbState where
  budget : Bool
  pids : List PidSlot
deriving DecidableEq

/-- Outcome of the kernel interactions dvb_add_pid performs when it claims
a free slot: the open of a new demux node fails, the open succeeds with
descriptor fd but DMX_SET_PES_FILTER fails (the descriptor is closed
again), or both succeed. -/
inductive AddEnv where
  | openFail
  | filterFail (fd : Int)
  | ok (fd : Int)
deriving DecidableEq

/-- The slot-scanning loop of dvb_add_pid (fallback build): a slot whose pid
field equals the requested pid short-circuits to success; an occupied slot
is skipped; the first free slot triggers the open and filter install, whose
outcome env decides between recording (fd, pid) and returning the error
with no slot consumed.  Falling off the table is the EMFILE error. -/
def addPidLoop (env : AddEnv) (pid : Nat) : List PidSlot → Int × List PidSlot
  | [] => (-1, [])
  | s :: rest =>
    if s.pid = pid then (0, s :: rest)
    else if s.fd = -1 then
      match env with
      | AddEnv.openFail => (-1, s :: rest)
      | AddEnv.filterFail _ => (-1, s :: rest)
      | AddEnv.ok fd => (0, { fd := fd, pid := pid } :: rest)
    else
      ((addPidLoop env pid rest).1, s :: (addPidLoop env pid rest).2)

/-- Mirror of dvb_add_pid: budget mode returns success at once with no state
change; otherwise the slot loop runs.  Returns the C result code (0 or -1)
and the successor state. -/
def dvb_add_pid (d : DvbState) (pid : Nat) (env : AddEnv) : Int × DvbState :=
  if d.budget = true then (0, d)
  else ((addPidLoop env pid d.pids).1,
        { d with pids := (addPidLoop env pid d.pids).2 })

/-- The scanning loop of dvb_remove_pid (fallback build): the first slot
whose pid field matches is closed and reset to the sentinels and the loop
returns; no match is a silent no-op. -/
def removePidLoop (pid : Nat) : List PidSlot → List PidSlot
  | [] => []
  | s :: rest =>
    if s.pid = pid then { fd := -1, pid := 65535 } :: rest
    else s :: removePidLoop pid rest

/-- Mirror of dvb_remove_pid: a no-op in budget mode, otherwise the scan. -/
def dvb_remove_pid (d : DvbState) (pid : Nat) : DvbState :=
  if d.budget = true then d
  else { d with pids := removePidLoop pid d.pids }

/-- The slot table as dvb_open initializes it in the fallback build: every
slot holds fd = -1 and pid = (uint16_t)(-1) = 65535. -/
def freshPids : List PidSlot :=
  List.replicate 256 { fd := -1, pid := 65535 }

/-- A freshly opened session with the given budget flag and an empty slot
table. -/
def freshState (budget : Bool) : DvbState :=
  { budget := budget, pids := freshPids }

/-- Strict sortedness of the key column of a translation table, the
precondition the C code's bsearch calls rely on. -/
def SortedKeys {β κ : Type} [LinearOrder κ] (k : β → κ) (arr : List β) : Prop :=
  ∀ (i j : Fin arr.length), (i : Nat) < (j : Nat) → k (arr.get i) < k (arr.get j)

instance {β κ : Type} [LinearOrder κ] (k : β → κ) (arr : List β) :
    Decidable (SortedKeys k arr) := by
  unfold SortedKeys; infer_instance

theorem cmp3_lt_iff {κ : Type} [LinearOrder κ] {a b : κ} :
    cmp3 a b = Ordering.lt ↔ a < b := by
  rcases lt_trichotomy a b with h | h | h
  · simp [cmp3, h]
  · subst h; simp [cmp3, lt_irrefl]
  · simp [cmp3, lt_asymm h, ne_of_gt h, h]

theorem cmp3_eq_iff {κ : Type} [LinearOrder κ] {a b : κ} :
    cmp3 a b = Ordering.eq ↔ a = b := by
  rcases lt_trichotomy a b with h | h | h
  · simp [cmp3, h, ne_of_lt h]
  · subst h; simp [cmp3, lt_irrefl]
  · simp [cmp3, lt_asymm h, ne_of_gt h]

theorem cmp3_gt_iff {κ : Type} [LinearOrder κ] {a b : κ} :
    cmp3 a b = Ordering.gt ↔ b < a := by
  rcases lt_trichotomy a b with h | h | h
  · simp [cmp3, h, lt_asymm h]
  · subst h; simp [cmp3, lt_irrefl]
  · simp [cmp3, lt_asymm h, ne_of_gt h, h]

theorem bsearchGo_sound {β : Type} (cmp : β → Ordering) (arr : List β) :
    ∀ (fuel l u : Nat) (e : β), bsearchGo cmp arr fuel l u = some e →
      e ∈ arr ∧ cmp e = Ordering.eq := by
  intro fuel
  induction fuel with
  | zero => intro l u e h; simp [bsearchGo] at h
  | succ fuel ih =>
    intro l u e h
    simp only [bsearchGo] at h
    split at h
    · split at h
      · cases h
      · rename_i f hg
        split at h
        · exact ih _ _ _ h
        · cases h
          rename_i hc
          exact ⟨List.getElem?_mem hg, hc⟩
        · exact ih _ _ _ h
    · cases h

theorem bsearchGo_finds {β κ : Type} [LinearOrder κ] (k : β → κ) (key : κ)
    (arr : List β) (hs : SortedKeys k arr) :
    ∀ (fuel l u i : Nat) (hi : i < arr.length), l ≤ i → i < u →
      u ≤ arr.length → u - l ≤ fuel → k (arr.get ⟨i, hi⟩) = key →
      ∃ e, bsearchGo (fun e => cmp3 key (k e)) arr fuel l u = some e := by
  intro fuel
  induction fuel with
  | zero => intro l u i hi h1 h2 h3 h4 h5; omega
  | succ fuel ih =>
    intro l u i hi h1 h2 h3 h4 hkey
    have hlu : l < u := Nat.lt_of_le_of_lt h1 h2
    have hm2 : (l + u) / 2 < u := by omega
    have hmlen : (l + u) / 2 < arr.length := Nat.lt_of_lt_of_le hm2 h3
    have hget : arr[(l + u) / 2]? = some (arr.get ⟨(l + u) / 2, hmlen⟩) := by
      rw [List.getElem?_eq_getElem hmlen]
      rfl
    simp only [bsearchGo, if_pos hlu, hget]
    rcases hc : cmp3 key (k (arr.get ⟨(l + u) / 2, hmlen⟩)) with _ | _ | _
    · have hklt : key < k (arr.get ⟨(l + u) / 2, hmlen⟩) := cmp3_lt_iff.mp hc
      have hilt : i < (l + u) / 2 := by
        by_contra hcon
        rcases Nat.eq_or_lt_of_le (Nat.le_of_not_lt hcon) with h | h
        · have : arr.get ⟨(l + u) / 2, hmlen⟩ = arr.get ⟨i, hi⟩ := by
            congr 1
            exact Fin.ext h
          rw [this, hkey] at hklt
          exact absurd hklt (lt_irrefl key)
        · have := hs ⟨(l + u) / 2, hmlen⟩ ⟨i, hi⟩ h
          rw [hkey] at this
          exact absurd (lt_trans hklt this) (lt_irrefl key)
      obtain ⟨e, he⟩ := ih l ((l + u) / 2) i hi h1 hilt (Nat.le_of_lt hmlen)
        (by omega) hkey
      exact ⟨e, he⟩
    · exact ⟨_, rfl⟩
    · have hkgt : k (arr.get ⟨(l + u) / 2, hmlen⟩) < key := cmp3_gt_iff.mp hc
      have higt : (l + u) / 2 < i := by
        by_contra hcon
        rcases Nat.eq_or_lt_of_le (Nat.le_of_not_lt hcon) with h | h
        · have : arr.get ⟨(l + u) / 2, hmlen⟩ = arr.get ⟨i, hi⟩ := by
            congr 1
            exact Fin.ext h.symm
          rw [this, hkey] at hkgt
          exact absurd hkgt (lt_irrefl key)
        · have := hs ⟨i, hi⟩ ⟨(l + u) / 2, hmlen⟩ h
          rw [hkey] at this
          exact absurd (lt_trans hkgt this) (lt_irrefl _)
      obtain ⟨e, he⟩ := ih ((l + u) / 2 + 1) u i hi higt h2 h3 (by omega) hkey
      exact ⟨e, he⟩

theorem sortedKeys_inj {β κ : Type} [LinearOrder κ] (k : β → κ) (arr : List β)
    (hs : SortedKeys k arr) {a b : β} (ha : a ∈ arr) (hb : b ∈ arr)
    (hk : k a = k b) : a = b := by
  rcases List.mem_iff_get.mp ha with ⟨i, rfl⟩
  rcases List.mem_iff_get.mp hb with ⟨j, rfl⟩
  rcases lt_trichotomy (i : Nat) (j : Nat) with h | h | h
  · exact absurd hk (ne_of_lt (hs i j h))
  · congr 1
    exact Fin.ext h
  · exact absurd hk.symm (ne_of_lt (hs j i h))

theorem bsearch_found {β κ : Type} [LinearOrder κ] (k : β → κ) (key : κ)
    (arr : List β) (hs : SortedKeys k arr) (e : β) (he : e ∈ arr)
    (hk : k e = key) : bsearch (fun x => cmp3 key (k x)) arr = some e := by
  rcases List.mem_iff_get.mp he with ⟨j, hj⟩
  obtain ⟨f, hf⟩ := bsearchGo_finds k key arr hs (arr.length + 1) 0 arr.length
    j j.isLt (Nat.zero_le _) j.isLt (le_refl _) (by omega) (by rw [hj]; exact hk)
  have hsound := bsearchGo_sound (fun x => cmp3 key (k x)) arr _ _ _ _ hf
  have hkeq : k f = key := (cmp3_eq_iff.mp hsound.2).symm
  rw [bsearch, hf]
  congr 1
  exact sortedKeys_inj k arr hs hsound.1 he (hkeq.trans hk.symm)

theorem bsearch_absent {β κ : Type} [LinearOrder κ] (k : β → κ) (key : κ)
    (arr : List β) (h : ∀ e ∈ arr, k e ≠ key) :
    bsearch (fun x => cmp3 key (k x)) arr = none := by
  rcases hb : bsearch (fun x => cmp3 key (k x)) arr with _ | e
  · rfl
  · have hsound := bsearchGo_sound _ arr _ _ _ _ hb
    exact absurd (cmp3_eq_iff.mp hsound.2).symm (h e hsound.1)

theorem str_data_inj {a b : String} (h : a.data = b.data) : a = b := by
  cases a
  cases b
  cases h
  rfl

theorem dvb_parse_int_found (i : Int) (map : List dvb_int_map_t) (dflt : Int)
    (hs : SortedKeys dvb_int_map_t.vlc map) (e : dvb_int_map_t)
    (he : e ∈ map) (hk : e.vlc = i) : dvb_parse_int i map dflt = e.linux_ := by
  unfold dvb_parse_int
  rw [bsearch_found dvb_int_map_t.vlc i map hs e he hk]

theorem dvb_parse_int_absent (i : Int) (map : List dvb_int_map_t) (dflt : Int)
    (h : ∀ e ∈ map, e.vlc ≠ i) : dvb_parse_int i map dflt = dflt := by
  unfold dvb_parse_int
  rw [bsearch_absent dvb_int_map_t.vlc i map h]

theorem dvb_parse_str_found (s : String) (map : List dvb_str_map_t)
    (dflt : Int) (hs : SortedKeys (fun e => e.vlc.data) map)
    (e : dvb_str_map_t) (he : e ∈ map) (hk : e.vlc = s) :
    dvb_parse_str (some s) map dflt = e.linux_ := by
  have hred : dvb_parse_str (some s) map dflt =
      (match bsearch (fun e => cmp3 s.data e.vlc.data) map with
       | some p => p.linux_
       | none => dflt) := rfl
  rw [hred, bsearch_found (fun e => e.vlc.data) s.data map hs e he
    (congrArg String.data hk)]

theorem dvb_parse_str_absent (s : String) (map : List dvb_str_map_t)
    (dflt : Int) (h : ∀ e ∈ map, e.vlc ≠ s) :
    dvb_parse_str (some s) map dflt = dflt := by
  have hred : dvb_parse_str (some s) map dflt =
      (match bsearch (fun e => cmp3 s.data e.vlc.data) map with
       | some p => p.linux_
       | none => dflt) := rfl
  rw [hred, bsearch_absent (fun e => e.vlc.data) s.data map
    (fun e he hd => h e he (str_data_inj hd))]

theorem addPidLoop_idem (pid : Nat) (env env2 : AddEnv) :
    ∀ (l l2 : List PidSlot), addPidLoop env pid l = (0, l2) →
      addPidLoop env2 pid l2 = (0, l2) := by
  intro l
  induction l with
  | nil =>
    intro l2 h
    simp only [addPidLoop] at h
    have h0 : (-1 : Int) = 0 := congrArg Prod.fst h
    exact absurd h0 (by decide)
  | cons s rest ih =>
    intro l2 h
    simp only [addPidLoop] at h
    by_cases hp : s.pid = pid
    · rw [if_pos hp] at h
      have hl : l2 = s :: rest := (congrArg Prod.snd h).symm
      subst hl
      simp only [addPidLoop, if_pos hp]
    · rw [if_neg hp] at h
      by_cases hf : s.fd = -1
      · rw [if_pos hf] at h
        cases env with
        | openFail =>
          have h0 : (-1 : Int) = 0 := congrArg Prod.fst h
          exact absurd h0 (by decide)
        | filterFail fd =>
          have h0 : (-1 : Int) = 0 := congrArg Prod.fst h
          exact absurd h0 (by decide)
        | ok fd =>
          have hl : l2 = { fd := fd, pid := pid } :: rest :=
            (congrArg Prod.snd h).symm
          subst hl
          simp [addPidLoop]
      · rw [if_neg hf] at h
        have h1 : (addPidLoop env pid rest).1 = 0 := congrArg Prod.fst h
        have hl : l2 = s :: (addPidLoop env pid rest).2 :=
          (congrArg Prod.snd h).symm
        have hX : addPidLoop env pid rest = (0, (addPidLoop env pid rest).2) := by
          rw [← h1]
        have hrec := ih (addPidLoop env pid rest).2 hX
        subst hl
        simp only [addPidLoop, if_neg hp, if_neg hf, hrec]

/-- C1 counterexample: contrary to the claim, input frequency 5000 MHz
(5000000 kHz) does not select the C-band-high oscillator pair
(5950000, 0); it lies above the C-band-high range 4500 to 4800 MHz, so the
band scan of dvb_set_sec fails for it. -/
theorem dvb_sec_osc_5ghz_counterexample :
    dvb_sec_osc 5000000 0 0 ≠ (5950000, 0, false) := by decide

/-- C1 (amended): in dvb_set_sec with no explicit low-oscillator frequency,
11000 MHz selects the Ku-band pair lowf 9750000 kHz and highf 10600000 kHz;
5000 MHz matches no band of the table (C-band-high only covers 4500 to
4800 MHz), so the error is logged and both oscillator frequencies remain
zero; 3000 MHz likewise matches no band, the error is logged and both
oscillator frequencies remain zero. -/
theorem dvb_sec_osc_band_selection :
    dvb_sec_osc 11000000 0 0 = (9750000, 10600000, false) ∧
    dvb_sec_osc 5000000 0 0 = (0, 0, true) ∧
    dvb_sec_osc 3000000 0 0 = (0, 0, true) := by decide

/-- C2 counterexample: with satellite index 2, polarization V (ASCII 86,
mapped to the low voltage SEC_VOLTAGE_13) and the tone forced on, the
DiSEqC data byte is not 0xFD as the claim computes. -/
theorem diseqc_databyte_counterexample :
    (diseqc_master_cmd 2 (dvb_parse_polarization 86) SEC_TONE_ON)[3]? ≠
      some 0xFD := by decide

/-- C2 (amended): in dvb_set_sec with satellite index 2, polarization V
(mapped to the low voltage level) and the 22 kHz tone forced on, the 6-byte
DiSEqC master command has framing byte 0xE0, address byte 0x10, command
byte 0x38 and data byte 0xF0 bitor (1 shl 2) bitor (0 shl 1) bitor 1 =
0xF5 (not 0xFD). -/
theorem diseqc_cmd_sat2_vertical_tone_on :
    diseqc_master_cmd 2 (dvb_parse_polarization 86) SEC_TONE_ON =
      [0xE0, 0x10, 0x38, 0xF5, 0, 0] ∧
    dvb_parse_polarization 86 = SEC_VOLTAGE_13 ∧
    (0xF5 : Nat) = 0xF0 ||| (1 <<< 2) ||| (0 <<< 1) ||| 1 := by decide

/-- C3: in dvb_set_dvbs2 the pilot argument resolves 0 to PILOT_OFF, 1 to
PILOT_ON and anything else to PILOT_AUTO, as the claim states; but the
roll-off default case reuses the constant PILOT_AUTO (value 2, which is
the value of ROLLOFF_25), not the distinct ROLLOFF_AUTO (value 3) that the
claim requires, so any unrecognized roll-off input is submitted as
DTV_ROLLOFF value 2. -/
theorem dvbs2_rolloff_default_reuses_pilot_auto :
    dvbs2_pilot 0 = PILOT_OFF ∧ dvbs2_pilot 1 = PILOT_ON ∧
    dvbs2_pilot 7 = PILOT_AUTO ∧ dvbs2_pilot (-3) = PILOT_AUTO ∧
    dvbs2_rolloff 20 = ROLLOFF_20 ∧ dvbs2_rolloff 25 = ROLLOFF_25 ∧
    dvbs2_rolloff 35 = ROLLOFF_35 ∧ dvbs2_rolloff 0 = PILOT_AUTO ∧
    dvbs2_rolloff 0 ≠ ROLLOFF_AUTO ∧ PILOT_AUTO = ROLLOFF_25 ∧
    (dvb_set_dvbs2_props 0 none 0 none 2 0)[7]? =
      some (DTV_ROLLOFF, PILOT_AUTO) := by decide

/-- C4 counterexample: on a fresh fallback-mode session, dvb_add_pid with
pid 0 does not return success while leaving the state untouched: when the
open and filter install succeed it opens a descriptor and consumes the
first table slot. -/
theorem dvb_add_pid_zero_counterexample :
    ¬ ((dvb_add_pid (freshState false) 0 (AddEnv.ok 3)).1 = 0 ∧
       (dvb_add_pid (freshState false) 0 (AddEnv.ok 3)).2 =
         freshState false) := by decide

theorem addPidLoop_fail_untracked (pid : Nat) (env : AddEnv)
    (henv : ∀ f, env ≠ AddEnv.ok f) :
    ∀ l : List PidSlot, (∀ s ∈ l, s.pid ≠ pid) →
      addPidLoop env pid l = (-1, l) := by
  intro l
  induction l with
  | nil => intro h; rfl
  | cons s rest ih =>
    intro h
    have hp : s.pid ≠ pid := h s (List.mem_cons_self s rest)
    simp only [addPidLoop, if_neg hp]
    by_cases hf : s.fd = -1
    · rw [if_pos hf]
      cases env with
      | openFail => rfl
      | filterFail f => rfl
      | ok f => exact absurd rfl (henv f)
    · rw [if_neg hf, ih (fun t ht => h t (List.mem_cons_of_mem s ht))]

theorem addPidLoop_ok_first_free (pid : Nat) (fd : Int) :
    ∀ (l : List PidSlot), (∀ s ∈ l, s.pid ≠ pid) →
      ∀ (i : Nat) (hi : i < l.length), (l.get ⟨i, hi⟩).fd = -1 →
      (∀ (j : Nat) (hj : j < l.length), j < i → (l.get ⟨j, hj⟩).fd ≠ -1) →
      addPidLoop (AddEnv.ok fd) pid l =
        (0, l.set i { fd := fd, pid := pid }) := by
  intro l
  induction l with
  | nil => intro _ i hi; exact absurd hi (Nat.not_lt_zero i)
  | cons s rest ih =>
    intro h i hi hfree hfirst
    have hp : s.pid ≠ pid := h s (List.mem_cons_self s rest)
    simp only [addPidLoop, if_neg hp]
    cases i with
    | zero =>
      have hfree0 : s.fd = -1 := hfree
      rw [if_pos hfree0]
      rfl
    | succ i2 =>
      have hocc : s.fd ≠ -1 := hfirst 0 (Nat.succ_pos rest.length) (Nat.succ_pos i2)
      rw [if_neg hocc]
      have hrest := ih (fun t ht => h t (List.mem_cons_of_mem s ht)) i2
        (Nat.lt_of_succ_lt_succ hi) hfree
        (fun j hj hji => hfirst (j + 1) (Nat.succ_lt_succ hj) (Nat.succ_lt_succ hji))
      rw [hrest]
      rfl

/-- C4 (amended): in fallback mode pid 0 is not special-cased (the PID-0
short-circuit exists only in the USE_DMX build): on any session where PID 0
is not yet tracked, dvb_add_pid with pid 0 opens a new filter descriptor
and records PID 0 in the first free table slot when the open and filter
install succeed, and fails with -1 leaving the state unchanged when the
open or the filter install fails. -/
theorem dvb_add_pid_zero_fallback (d : DvbState) (env : AddEnv) (fd : Int)
    (hb : d.budget = false) (huntr : ∀ s ∈ d.pids, s.pid ≠ 0) :
    ((∀ f, env ≠ AddEnv.ok f) → dvb_add_pid d 0 env = (-1, d)) ∧
    (∀ (i : Nat) (hi : i < d.pids.length), (d.pids.get ⟨i, hi⟩).fd = -1 →
      (∀ (j : Nat) (hj : j < d.pids.length), j < i →
        (d.pids.get ⟨j, hj⟩).fd ≠ -1) →
      dvb_add_pid d 0 (AddEnv.ok fd) =
        (0, { d with pids := d.pids.set i { fd := fd, pid := 0 } })) := by
  constructor
  · intro henv
    unfold dvb_add_pid
    rw [if_neg (by simp [hb]), addPidLoop_fail_untracked 0 env henv d.pids huntr]
  · intro i hi hfree hfirst
    unfold dvb_add_pid
    rw [if_neg (by simp [hb]),
      addPidLoop_ok_first_free 0 fd d.pids huntr i hi hfree hfirst]

/-- C4 witness: on a fresh fallback session, a failing open returns -1 with
the table unchanged, and a successful open with descriptor 3 records PID 0
in slot 0. -/
theorem dvb_add_pid_zero_fallback_witness :
    dvb_add_pid (freshState false) 0 AddEnv.openFail = (-1, freshState false) ∧
    dvb_add_pid (freshState false) 0 (AddEnv.ok 3) =
      (0, { budget := false, pids := freshPids.set 0 { fd := 3, pid := 0 } }) := by
  have h := dvb_add_pid_zero_fallback (freshState false) AddEnv.openFail 3 rfl
    (by decide)
  exact ⟨h.1 (fun f hf => AddEnv.noConfusion hf),
    h.2 0 (by decide) rfl (fun j hj hj0 => absurd hj0 (Nat.not_lt_zero j))⟩

/-- C5: the claim says the hierarchy translation table is a sorted mapping
from configuration key to protocol enum and that dvb_parse_hierarchy maps
-1, 0, 1, 2, 4 to HIERARCHY_AUTO, NONE, 1, 2, 4; in the source the two
columns of every row are transposed, so the key column is 4, 0, 1, 2, 3 -
not sorted - and the binary search misses the entry for input 4, returning
the default HIERARCHY_AUTO instead of HIERARCHY_4 (inputs -1, 0, 1, 2
coincidentally still produce the claimed values). -/
theorem dvb_parse_hierarchy_table_bug :
    dvb_parse_hierarchy (-1) = HIERARCHY_AUTO ∧
    dvb_parse_hierarchy 0 = HIERARCHY_NONE ∧
    dvb_parse_hierarchy 1 = HIERARCHY_1 ∧
    dvb_parse_hierarchy 2 = HIERARCHY_2 ∧
    dvb_parse_hierarchy 4 = HIERARCHY_AUTO ∧
    HIERARCHY_4 ≠ HIERARCHY_AUTO ∧
    ¬ SortedKeys dvb_int_map_t.vlc hierarchies := by decide

/-- C6: every property set submitted by dvb_set_dvbt carries DTV_FREQUENCY
equal to the input frequency times 1000 (uint32 arithmetic) and
DTV_BANDWIDTH_HZ equal to the input bandwidth times 1000000 (uint32
arithmetic), the two distinct scalings of the source. -/
theorem dvb_set_dvbt_scaling (freq : Nat) (modstr fechstr feclstr : Option String)
    (bandwidth : Nat) (transmit_val : Int) (guardstr : Option String)
    (hierarchy_val : Int) :
    (dvb_set_dvbt_props freq modstr fechstr feclstr bandwidth transmit_val
        guardstr hierarchy_val)[2]? = some (DTV_FREQUENCY, U32 (freq * 1000)) ∧
    (dvb_set_dvbt_props freq modstr fechstr feclstr bandwidth transmit_val
        guardstr hierarchy_val)[6]? =
      some (DTV_BANDWIDTH_HZ, U32 (bandwidth * 1000000)) := ⟨rfl, rfl⟩

/-- C6 witness at concrete inputs. -/
theorem dvb_set_dvbt_scaling_witness :
    (dvb_set_dvbt_props 474 none none none 8 8 none 0)[2]? =
      some (DTV_FREQUENCY, U32 (474 * 1000)) ∧
    (dvb_set_dvbt_props 474 none none none 8 8 none 0)[6]? =
      some (DTV_BANDWIDTH_HZ, U32 (8 * 1000000)) :=
  dvb_set_dvbt_scaling 474 none none none 8 8 none 0

/-- C7: on a fallback-mode session, once a PID has been added successfully,
a second dvb_add_pid with the same PID returns success and leaves the
session state (the whole PID table) unchanged, whatever the kernel would
answer to a new open. -/
theorem dvb_add_pid_idempotent (d : DvbState) (pid : Nat) (env env2 : AddEnv)
    (d2 : DvbState) (hb : d.budget = false)
    (h : dvb_add_pid d pid env = (0, d2)) :
    dvb_add_pid d2 pid env2 = (0, d2) := by
  unfold dvb_add_pid at h
  rw [if_neg (by simp [hb])] at h
  have h1 : (addPidLoop env pid d.pids).1 = 0 := congrArg Prod.fst h
  have hl : d2 = { d with pids := (addPidLoop env pid d.pids).2 } :=
    (congrArg Prod.snd h).symm
  have hX : addPidLoop env pid d.pids = (0, (addPidLoop env pid d.pids).2) := by
    rw [← h1]
  have hrec := addPidLoop_idem pid env env2 d.pids
    (addPidLoop env pid d.pids).2 hX
  subst hl
  unfold dvb_add_pid
  rw [if_neg (by simp [hb])]
  simp only [hrec]

/-- C7 witness: adding PID 100 to a fresh fallback session and then adding
it again. -/
theorem dvb_add_pid_idempotent_witness :
    dvb_add_pid
      { budget := false,
        pids := { fd := 7, pid := 100 } ::
          List.replicate 255 { fd := -1, pid := 65535 } } 100 AddEnv.openFail =
      (0, { budget := false,
            pids := { fd := 7, pid := 100 } ::
              List.replicate 255 { fd := -1, pid := 65535 } }) :=
  dvb_add_pid_idempotent (freshState false) 100 (AddEnv.ok 7) AddEnv.openFail
    { budget := false,
      pids := { fd := 7, pid := 100 } ::
        List.replicate 255 { fd := -1, pid := 65535 } } rfl rfl

/-- C8: on a budget-mode session, dvb_add_pid returns success immediately
and dvb_remove_pid returns immediately, and neither call mutates any field
of the session state, for every PID. -/
theorem dvb_budget_mode_noop (d : DvbState) (pid : Nat) (env : AddEnv)
    (hb : d.budget = true) :
    dvb_add_pid d pid env = (0, d) ∧ dvb_remove_pid d pid = d := by
  unfold dvb_add_pid dvb_remove_pid
  rw [hb]
  simp

/-- C8 witness: a fresh budget-mode session and PID 42. -/
theorem dvb_budget_mode_noop_witness :
    dvb_add_pid (freshState true) 42 AddEnv.openFail = (0, freshState true) ∧
    dvb_remove_pid (freshState true) 42 = freshState true :=
  dvb_budget_mode_noop (freshState true) 42 AddEnv.openFail rfl

/-- C9: the parameter translators are total and deterministic: over any
sorted table, dvb_parse_int returns the mapped value of the unique entry
carrying the key when it is present and the caller default otherwise, and
dvb_parse_str does the same, with a NULL string also yielding the default;
no input is an error. -/
theorem dvb_parse_total_lookup (imap : List dvb_int_map_t)
    (smap : List dvb_str_map_t) (i : Int) (s : String) (d1 d2 : Int)
    (hsi : SortedKeys dvb_int_map_t.vlc imap)
    (hss : SortedKeys (fun e => e.vlc.data) smap) :
    (∀ e ∈ imap, e.vlc = i → dvb_parse_int i imap d1 = e.linux_) ∧
    ((∀ e ∈ imap, e.vlc ≠ i) → dvb_parse_int i imap d1 = d1) ∧
    dvb_parse_str none smap d2 = d2 ∧
    (∀ e ∈ smap, e.vlc = s → dvb_parse_str (some s) smap d2 = e.linux_) ∧
    ((∀ e ∈ smap, e.vlc ≠ s) → dvb_parse_str (some s) smap d2 = d2) :=
  ⟨fun e he hk => dvb_parse_int_found i imap d1 hsi e he hk,
   fun h => dvb_parse_int_absent i imap d1 h,
   rfl,
   fun e he hk => dvb_parse_str_found s smap d2 hss e he hk,
   fun h => dvb_parse_str_absent s smap d2 h⟩

/-- C9 witness: the polarization and FEC tables of the source are sorted,
and lookups on them hit and miss as the contract states. -/
theorem dvb_parse_total_lookup_witness :
    dvb_parse_int 86 polarizations SEC_VOLTAGE_OFF = SEC_VOLTAGE_13 ∧
    dvb_parse_int 99 polarizations SEC_VOLTAGE_OFF = SEC_VOLTAGE_OFF ∧
    dvb_parse_str (some "5/6") rates FEC_AUTO = FEC_5_6 ∧
    dvb_parse_str none rates FEC_AUTO = FEC_AUTO := by
  have h := dvb_parse_total_lookup polarizations rates 86 "5/6"
    SEC_VOLTAGE_OFF FEC_AUTO (by decide) (by decide)
  have h2 := dvb_parse_total_lookup polarizations rates 99 "5/6"
    SEC_VOLTAGE_OFF FEC_AUTO (by decide) (by decide)
  exact ⟨h.1 ⟨86, SEC_VOLTAGE_13⟩ (by decide) rfl,
    h2.2.1 (by decide),
    h.2.2.2.1 ⟨"5/6", FEC_5_6⟩ (by decide) rfl,
    h.2.2.1⟩

/-- C10: on a fresh fallback-mode session, dvb_add_pid with pid 0xFFFF
returns success without opening any descriptor and without changing the
table: every free slot stores (uint16_t)(-1) = 65535 in its pid field, so
the very first slot compares equal to the requested PID. -/
theorem dvb_add_pid_ffff_sentinel (env : AddEnv) :
    dvb_add_pid (freshState false) 65535 env = (0, freshState false) := by
  cases env <;> rfl

/-- C10 witness at a concrete environment. -/
theorem dvb_add_pid_ffff_sentinel_witness :
    dvb_add_pid (freshState false) 65535 AddEnv.openFail =
      (0, freshState false) :=
  dvb_add_pid_ffff_sentinel AddEnv.openFail
